import Mathlib

/-!
Shallow embedding of the wallet-health-score repository.

Sources embedded:
- `src/etl/src/wallet_etl/pipeline/daily_job.py` (normalizer helpers, the five
  sub-scorers, `calculate_scores`, `run_wallet_pipeline`),
- `src/api/app/main.py` (extraction-job deduplication in `extract_wallet`),
- `src/etl/src/wallet_etl/storage/postgres_store.py` (`upsert_wallets`).

Modelling conventions:
- Python floats are modelled as exact rationals (`ℚ`); Python's `round(x, n)`
  (round-half-to-even) is modelled by `pyround` at exact rational precision.
- Timestamps are UTC epoch seconds (`ℤ`); `timedelta(days=30)` is `30*86400`
  seconds and `timedelta.days` is floor division by `86400` (`Int.fdiv`).
- A transaction dict is modelled by the fields the pipeline reads:
  `tx["metadata"]["blockTimestamp"]` (already coerced to epoch seconds),
  `tx.get("rawContract", {}).get("address")`, `tx.get("value")` and
  `tx.get("category")`.  A position dict is modelled by
  `p.get("tokenBalance")` (already parsed to an integer; `none` stands for a
  missing key or JSON null, which `_parse_balance` maps to 0) and
  `p.get("contractAddress")`.
- Python dicts carrying metrics are association lists; `{**a, **b}` merging is
  `a ++ b` with lookups resolved from the right (`dictGet`), which matches the
  later-key-wins semantics of dict unpacking.
-/

namespace WalletHealth

/-- Lowercase a string character-wise; embeds Python `str.lower()` for the
ASCII contract addresses and token indicators this code handles. -/
def lowerStr (s : String) : String := String.mk (s.data.map Char.toLower)

/-- Does `needle` occur at the start of `hay`? Helper for substring search. -/
def startsWithCh : List Char → List Char → Bool
  | [], _ => true
  | _ :: _, [] => false
  | a :: as, b :: bs => a = b && startsWithCh as bs

/-- Does `needle` occur contiguously inside `hay`? Embeds Python's
`needle in hay` test on strings. -/
def containsSub (needle : List Char) : List Char → Bool
  | [] => needle.isEmpty
  | b :: rest => startsWithCh needle (b :: rest) || containsSub needle rest

/-- Insert into an ascending list; helper for `sortAsc`. -/
def sortIns (x : ℤ) : List ℤ → List ℤ
  | [] => [x]
  | y :: ys => if x ≤ y then x :: y :: ys else y :: sortIns x ys

/-- Insertion sort, ascending; embeds Python `sorted(...)` on timestamps. -/
def sortAsc (l : List ℤ) : List ℤ := l.foldr sortIns []

/-- Round-half-to-even to an integer; Python's bankers' rounding `round(x)`
at exact rational precision. -/
def rhe (x : ℚ) : ℤ :=
  if x - Int.floor x < 1/2 then Int.floor x
  else if x - Int.floor x > 1/2 then Int.floor x + 1
  else if Int.floor x % 2 = 0 then Int.floor x else Int.floor x + 1

/-- Python `round(x, nd)` at exact rational precision. -/
def pyround (nd : ℕ) (x : ℚ) : ℚ := (rhe (x * 10 ^ nd) : ℚ) / 10 ^ nd

/-- Embeds `max(0.0, min(1.0, x))`, the clamp used by three scorers. -/
def clamp01 (x : ℚ) : ℚ := max 0 (min 1 x)

/-- Metrics dictionaries: insertion-ordered association lists of numeric
values (Python ints and floats are both modelled as `ℚ`). -/
abbrev Metrics := List (String × ℚ)

/-- Final value of a key in a metrics dict built by `{**a, **b, ...}`
unpacking: the rightmost binding wins, so look up in the reversed list. -/
def dictGet (m : Metrics) (k : String) : Option ℚ := List.lookup k m.reverse

/-- The key set of a metrics dict. -/
def dictKeys (m : Metrics) : List String := m.map Prod.fst

/-- Python-set insertion into a duplicate-free list (`set.add`). -/
def setInsert (s : List String) (x : String) : List String :=
  if x ∈ s then s else s ++ [x]

/-- Transaction as read by the scorers (see file header for the dict keys
each field embeds). -/
structure Tx where
  blockTimestamp : ℤ
  rawContractAddress : Option String
  value : Option ℚ
  category : Option String
deriving DecidableEq

/-- Position as read by the scorers (see file header). -/
structure Position where
  tokenBalance : Option ℤ
  contractAddress : Option String
deriving DecidableEq

/-- Embeds `_coerce_timestamp`: timestamps are already canonical epoch
seconds in this model, so coercion is the identity on well-formed input. -/
def coerce_timestamp (t : ℤ) : ℤ := t

/-- Embeds `_parse_balance`: `None` (and a missing key, defaulted to 0)
parses to 0; integers, hex strings and decimal strings parse to their
integer value, represented here already parsed. -/
def parse_balance (v : Option ℤ) : ℤ := v.getD 0

/-- Embeds `_parse_value`: `None` and non-numeric values both parse to 0.0
(both are modelled as `none`); numbers parse to themselves. -/
def parse_value (v : Option ℚ) : ℚ := v.getD 0

/-- Known stablecoin contract addresses (lowercase), `STABLECOINS` in
`daily_job.py`. -/
def STABLECOINS : List String :=
  [ "0xdac17f958d2ee523a2206206994597c13d831ec7"
  , "0xa0b86991c6218b36c1d19d4a2e9eb0ce3606eb48"
  , "0x6b175474e89094c44da98b954eedeac495271d0f"
  , "0x4fabb145d64652a948d72533023f6e7a623c7c53"
  , "0x0000000000085d4780b73119b644ae5ecd22b376"
  , "0x8e870d67f660d95d5be530380d0ec0bd388289e1"
  , "0x956f47f50a910163d8bf957cf5846d573e7f87ca"
  , "0x853d955acef822db058eb8505911ed77f175b99e"
  , "0x5f98805a4e8be255a32880fdec7f6728c6568ba0"
  , "0x57ab1ec28d129707052df4df418d58a2d46d5f51" ]

/-- Known high-risk/volatile token indicators, `HIGH_RISK_INDICATORS`. -/
def HIGH_RISK_INDICATORS : List String :=
  ["meme", "shib", "doge", "pepe", "floki", "inu", "elon", "moon", "safe"]

/-- Transfers of the last 30 days: the `recent_tx` filter shared by the
activity, risk and stability scorers. -/
def recentTx (transactions : List Tx) (now : ℤ) : List Tx :=
  transactions.filter fun tx =>
    coerce_timestamp tx.blockTimestamp > now - 30 * 86400

/-- Embeds `calculate_activity_score` (returns `(score, metrics)`). -/
def calculate_activity_score (transactions : List Tx) (now : ℤ) : ℚ × Metrics :=
  let recent_tx := recentTx transactions now
  let contracts := recent_tx.foldl
    (fun s tx =>
      match tx.rawContractAddress with
      | none => s
      | some contract => if contract = "" then s else setInsert s (lowerStr contract))
    []
  let tx_count_score := min ((recent_tx.length : ℚ) / 10) 1
  let contract_diversity := min ((contracts.length : ℚ) / 5) 1
  let activity_score := tx_count_score * 0.6 + contract_diversity * 0.4
  (activity_score,
   [ ("recent_tx_count", (recent_tx.length : ℚ))
   , ("unique_contracts_30d", (contracts.length : ℚ)) ])

/-- The `active_positions` filter shared by the diversification, risk and
stability scorers: positions with parsed balance strictly above zero. -/
def active_positions (positions : List Position) : List Position :=
  positions.filter fun p => parse_balance p.tokenBalance > 0

/-- Embeds `calculate_diversification_score`. -/
def calculate_diversification_score (positions : List Position) : ℚ × Metrics :=
  let num_tokens := (active_positions positions).length
  let token_count_score := min ((num_tokens : ℚ) / 10) 1
  let concentration_score := if num_tokens > 1 then min ((num_tokens : ℚ) / 20) 1 else 0
  let diversification_score := token_count_score * 0.7 + concentration_score * 0.3
  (diversification_score, [("unique_tokens", (num_tokens : ℚ))])

/-- Is this position's lowercased contract address in `STABLECOINS`? -/
def posIsStablecoin (p : Position) : Bool :=
  lowerStr (p.contractAddress.getD "") ∈ STABLECOINS

/-- Does this position's lowercased contract address contain a high-risk
indicator substring? -/
def posIsHighRisk (p : Position) : Bool :=
  let contract := lowerStr (p.contractAddress.getD "")
  HIGH_RISK_INDICATORS.any fun ind => containsSub ind.data (lowerStr contract).data

/-- Embeds `calculate_risk_score` (higher = less risky). -/
def calculate_risk_score (transactions : List Tx) (positions : List Position)
    (now : ℤ) : ℚ × Metrics :=
  let active := active_positions positions
  if active = [] then
    (0.5, [("stablecoin_ratio", 0), ("high_risk_tokens", 0)])
  else
    let stablecoin_count := active.countP fun p => posIsStablecoin p
    let high_risk_count := active.countP fun p => posIsHighRisk p
    let total_tokens := active.length
    let stablecoin_ratio : ℚ :=
      if total_tokens > 0 then (stablecoin_count : ℚ) / total_tokens else 0
    let high_risk_ratio : ℚ :=
      if total_tokens > 0 then (high_risk_count : ℚ) / total_tokens else 0
    let recent_tx := recentTx transactions now
    let tx_values := recent_tx.map fun tx => parse_value tx.value
    let large_tx_ratio : ℚ :=
      if tx_values ≠ [] then
        let avg_value := tx_values.sum / tx_values.length
        let large_txs : ℕ :=
          if avg_value > 0 then tx_values.countP (fun v => v > avg_value * 10) else 0
        if tx_values ≠ [] then (large_txs : ℚ) / tx_values.length else 0
      else 0
    let risk_score :=
      clamp01 (0.5 + stablecoin_ratio * 0.4 - high_risk_ratio * 0.3 - large_tx_ratio * 0.2)
    (risk_score,
     [ ("stablecoin_ratio", pyround 3 stablecoin_ratio)
     , ("high_risk_tokens", (high_risk_count : ℚ))
     , ("stablecoin_count", (stablecoin_count : ℚ)) ])

/-- Stablecoin ratio over active positions, as computed inside
`calculate_risk_score` (guard on `total_tokens > 0` as in the source). -/
def stablecoin_ratio_of (positions : List Position) : ℚ :=
  let active := active_positions positions
  if active.length > 0 then
    ((active.countP fun p => posIsStablecoin p : ℕ) : ℚ) / active.length
  else 0

/-- High-risk ratio over active positions, as computed inside
`calculate_risk_score`. -/
def high_risk_ratio_of (positions : List Position) : ℚ :=
  let active := active_positions positions
  if active.length > 0 then
    ((active.countP fun p => posIsHighRisk p : ℕ) : ℚ) / active.length
  else 0

/-- Large-transaction ratio over the 30-day window, as computed inside
`calculate_risk_score`: share of recent transfers whose value exceeds 10
times the window mean (0 when the window is empty or the mean is 0). -/
def large_tx_ratio_of (transactions : List Tx) (now : ℤ) : ℚ :=
  let tx_values := (recentTx transactions now).map fun tx => parse_value tx.value
  if tx_values ≠ [] then
    let avg_value := tx_values.sum / tx_values.length
    let large_txs : ℕ :=
      if avg_value > 0 then tx_values.countP (fun v => v > avg_value * 10) else 0
    if tx_values ≠ [] then (large_txs : ℚ) / tx_values.length else 0
  else 0

/-- Embeds `calculate_profitability_score`. -/
def calculate_profitability_score (transactions : List Tx) (now : ℤ) : ℚ × Metrics :=
  if transactions = [] then
    (0.5, [("net_flow", 0), ("avg_value", 0)])
  else
    let recent_tx := transactions.filter fun tx =>
      coerce_timestamp tx.blockTimestamp > now - 90 * 86400
    if recent_tx = [] then
      (0.5, [("net_flow", 0), ("avg_value", 0)])
    else
      let total_received : ℚ :=
        (recent_tx.filter fun tx =>
          tx.category.getD "" = "external" ∨ tx.category.getD "" = "internal").foldl
          (fun acc tx => acc + parse_value tx.value) 0
      let total_sent : ℚ := 0
      let total_volume := total_received + total_sent
      let avg_value : ℚ :=
        if recent_tx ≠ [] then total_volume / recent_tx.length else 0
      let activity_level := min ((recent_tx.length : ℚ) / 50) 1
      let consistency : ℚ :=
        if recent_tx.length ≥ 2 then
          let timestamps :=
            sortAsc (recent_tx.map fun tx => coerce_timestamp tx.blockTimestamp)
          let gaps := List.zipWith (fun a b => Int.fdiv (b - a) 86400)
            timestamps timestamps.tail
          let avg_gap : ℚ :=
            if gaps ≠ [] then ((gaps.map fun g => (g : ℚ)).sum) / gaps.length else 30
          min 1 (7 / (avg_gap + 1))
        else 0.3
      let profitability_score := clamp01 (activity_level * 0.5 + consistency * 0.5)
      (profitability_score,
       [ ("tx_count_90d", (recent_tx.length : ℚ))
       , ("avg_tx_value", pyround 4 avg_value)
       , ("activity_consistency", pyround 3 consistency) ])

/-- The `wallet_age_days` computation inside `calculate_stability_score`:
`transactions[-1]` is the last element of the transfer list, the whole-day
difference uses `timedelta.days` (floor), an empty list yields 0, and the
`KeyError`/`IndexError` guard corresponds to totality of this function. -/
def wallet_age_days_of (transactions : List Tx) (now : ℤ) : ℤ :=
  match transactions.getLast? with
  | none => 0
  | some tx => Int.fdiv (now - coerce_timestamp tx.blockTimestamp) 86400

/-- Embeds `calculate_stability_score`. -/
def calculate_stability_score (transactions : List Tx) (positions : List Position)
    (now : ℤ) : ℚ × Metrics :=
  let active := active_positions positions
  let stablecoin_count := active.countP fun p => posIsStablecoin p
  let stablecoin_ratio : ℚ :=
    if active ≠ [] then (stablecoin_count : ℚ) / active.length else 0
  let wallet_age_days := wallet_age_days_of transactions now
  let age_score := min ((wallet_age_days : ℚ) / 730) 1
  let recent_tx := recentTx transactions now
  let sell_count := recent_tx.countP fun tx =>
    (tx.category = some "erc20" ∨ tx.category = some "external")
      ∧ parse_value tx.value > 0
  let panic_indicator : ℚ :=
    if recent_tx.length > 0 then
      let sell_ratio := (sell_count : ℚ) / recent_tx.length
      1 - min (sell_ratio * 2) 1
    else 0.7
  let stability_score :=
    clamp01 (stablecoin_ratio * 0.3 + age_score * 0.4 + panic_indicator * 0.3)
  (stability_score,
   [ ("stablecoin_ratio", pyround 3 stablecoin_ratio)
   , ("wallet_age_days", (wallet_age_days : ℚ))
   , ("recent_sell_count", (sell_count : ℚ)) ])

/-- Result record of `calculate_scores` (the returned dict). -/
structure ScoreResult where
  activity_score : ℚ
  diversification_score : ℚ
  risk_score : ℚ
  profitability_score : ℚ
  stability_score : ℚ
  total_score : ℚ
  metrics : Metrics
deriving DecidableEq

/-- Embeds `calculate_scores`.  The source samples `now = datetime.now(utc)`
inside the function; the sampled clock is the explicit `now` argument here. -/
def calculate_scores (transactions : List Tx) (positions : List Position)
    (now : ℤ) : ScoreResult :=
  let activity := calculate_activity_score transactions now
  let div := calculate_diversification_score positions
  let risk := calculate_risk_score transactions positions now
  let profit := calculate_profitability_score transactions now
  let stability := calculate_stability_score transactions positions now
  let activity_score := pyround 4 activity.1
  let diversification_score := pyround 4 div.1
  let risk_score := pyround 4 risk.1
  let profitability_score := pyround 4 profit.1
  let stability_score := pyround 4 stability.1
  let total_score :=
    activity_score * 0.2 + diversification_score * 0.2 + risk_score * 0.2
      + profitability_score * 0.2 + stability_score * 0.2
  let metrics : Metrics :=
    [ ("transactions_count", (transactions.length : ℚ))
    , ("positions_count", (dictGet div.2 "unique_tokens").getD 0) ]
    ++ activity.2 ++ div.2 ++ risk.2 ++ profit.2 ++ stability.2
  { activity_score := activity_score
  , diversification_score := diversification_score
  , risk_score := risk_score
  , profitability_score := profitability_score
  , stability_score := stability_score
  , total_score := pyround 4 total_score
  , metrics := metrics }

/-- Outcome of the body of the per-address loop in `run_wallet_pipeline`
(fetch transfers, fetch balances, archive raw payloads, upsert wallet /
transaction / position rows, score, upsert the daily record).  Each of those
calls can raise; the composite outcome for one address is abstracted as one
fallible step, `Except.error e` when any call raises `e`. -/
abbrev AddressStep := String → Except String Unit

/-- Embeds the `for address in address_list:` loop of `run_wallet_pipeline`.
The loop body contains no `try`/`except`, so a raised exception propagates
out of the loop: the run returns the addresses fully processed before the
failure, and the first error if any. -/
def run_wallet_pipeline (step : AddressStep) : List String → List String × Option String
  | [] => ([], none)
  | address :: rest =>
    match step address with
    | Except.error e => ([], some e)
    | Except.ok _ =>
      let done := run_wallet_pipeline step rest
      (address :: done.1, done.2)

/-- Extraction job lifecycle states (`status` column). -/
inductive JobStatus where
  | pending
  | processing
  | completed
  | failed
deriving DecidableEq

/-- Row of the `extraction_jobs` table (fields the endpoint reads). -/
structure Job where
  id : ℕ
  address : String
  status : JobStatus
  created_at : ℕ
deriving DecidableEq

/-- State of the API process: the `extraction_jobs` table, the background
pipeline runs spawned so far (job id, address), a fresh-id source for
`uuid_generate_v4()` and a monotone clock for `NOW()`. -/
structure ApiState where
  jobs : List Job
  runs : List (ℕ × String)
  next_id : ℕ
  clock : ℕ
deriving DecidableEq

/-- Response of `extract_wallet`: HTTP 400 for an invalid address, else
HTTP 202 with the (existing or new) job. -/
inductive ExtractResponse where
  | bad_request
  | accepted (job : Job)
deriving DecidableEq

/-- Embeds `_is_valid_eth_address`: the regex `^0x[a-fA-F0-9]{40}$`. -/
def is_valid_eth_address (address : String) : Bool :=
  let cs := address.data
  cs.length = 42 && decide (cs.take 2 = ['0', 'x']) &&
    (cs.drop 2).all fun c =>
      c.isDigit || ('a' ≤ c && c ≤ 'f') || ('A' ≤ c && c ≤ 'F')

/-- Embeds `PostgresStore.get_latest_extraction_job`: the newest job (by
`created_at`) whose address matches case-insensitively. -/
def get_latest_extraction_job (jobs : List Job) (address : String) : Option Job :=
  (jobs.filter fun j => lowerStr j.address = lowerStr address).foldl
    (fun best j =>
      match best with
      | none => some j
      | some b => if j.created_at > b.created_at then some j else some b)
    none

/-- Embeds `PostgresStore.create_extraction_job` plus the thread spawn in
`extract_wallet`: insert a fresh `pending` job and record the background run. -/
def create_job_and_spawn (st : ApiState) (address : String) : ApiState × Job :=
  let job : Job :=
    { id := st.next_id, address := address, status := JobStatus.pending
    , created_at := st.clock }
  ({ jobs := st.jobs ++ [job]
   , runs := st.runs ++ [(job.id, address)]
   , next_id := st.next_id + 1
   , clock := st.clock + 1 }, job)

/-- Embeds the `extract_wallet` endpoint: reject invalid addresses, return
the latest job unchanged while it is `pending`/`processing`, otherwise
create a new job and spawn a background pipeline run. -/
def extract_wallet (st : ApiState) (address : String) : ApiState × ExtractResponse :=
  if ¬ is_valid_eth_address address then
    (st, ExtractResponse.bad_request)
  else
    match get_latest_extraction_job st.jobs address with
    | some existing_job =>
      if existing_job.status = JobStatus.pending
          ∨ existing_job.status = JobStatus.processing then
        (st, ExtractResponse.accepted existing_job)
      else
        let created := create_job_and_spawn st address
        (created.1, ExtractResponse.accepted created.2)
    | none =>
      let created := create_job_and_spawn st address
      (created.1, ExtractResponse.accepted created.2)

/-- Row of the `wallets` table (columns touched by `upsert_wallets`);
`first_seen`/`last_seen` are nullable timestamp columns. -/
structure WalletRow where
  address : String
  chain : String
  first_seen : Option ℤ
  last_seen : Option ℤ
  tags : List String
deriving DecidableEq

/-- SQL `COALESCE` on two nullable values. -/
def sql_coalesce (a b : Option ℤ) : Option ℤ :=
  match a with
  | some x => some x
  | none => b

/-- SQL `LEAST`: smallest of the non-null arguments, null iff both null. -/
def sql_least (a b : Option ℤ) : Option ℤ :=
  match a, b with
  | none, y => y
  | x, none => x
  | some x, some y => some (min x y)

/-- SQL `GREATEST`: largest of the non-null arguments, null iff both null. -/
def sql_greatest (a b : Option ℤ) : Option ℤ :=
  match a, b with
  | none, y => y
  | x, none => x
  | some x, some y => some (max x y)

/-- The `ON CONFLICT (address) DO UPDATE` arm of `upsert_wallets`:
`first_seen = LEAST(COALESCE(wallets.first_seen, EXCLUDED.first_seen),
EXCLUDED.first_seen)`, `last_seen = GREATEST(COALESCE(wallets.last_seen,
EXCLUDED.last_seen), EXCLUDED.last_seen)`; `chain` and `tags` are
overwritten from the excluded row. -/
def upsert_wallet_row (old excluded : WalletRow) : WalletRow :=
  { address := old.address
  , chain := excluded.chain
  , first_seen := sql_least (sql_coalesce old.first_seen excluded.first_seen)
      excluded.first_seen
  , last_seen := sql_greatest (sql_coalesce old.last_seen excluded.last_seen)
      excluded.last_seen
  , tags := excluded.tags }

/-- The `wallets` table, keyed by its primary key `address`. -/
abbrev WalletTable := String → Option WalletRow

/-- Embeds `PostgresStore.upsert_wallets`: insert each row, resolving an
address conflict with `upsert_wallet_row`. -/
def upsert_wallets (table : WalletTable) (rows : List WalletRow) : WalletTable :=
  rows.foldl
    (fun t row => fun a =>
      if a = row.address then
        match t row.address with
        | none => some row
        | some old => some (upsert_wallet_row old row)
      else t a)
    table

/-! ## General lemmas about the numeric helpers -/

lemma rhe_nonneg (x : ℚ) (hx : 0 ≤ x) : 0 ≤ rhe x := by
  have h0 : (0 : ℤ) ≤ ⌊x⌋ := Int.floor_nonneg.mpr hx
  unfold rhe
  split_ifs <;> omega

lemma rhe_le_int (x : ℚ) (M : ℤ) (h : x ≤ (M : ℚ)) : rhe x ≤ M := by
  have hf : ⌊x⌋ ≤ M := by
    have h1 := Int.floor_le_floor h
    simpa using h1
  have hfx : (⌊x⌋ : ℚ) ≤ x := Int.floor_le x
  unfold rhe
  split_ifs with h1 h2 h3
  · exact hf
  · have hlt : (⌊x⌋ : ℚ) < (M : ℚ) := by linarith
    have := Int.cast_lt.mp hlt
    omega
  · exact hf
  · have heq : x - (⌊x⌋ : ℚ) = 1/2 := le_antisymm (not_lt.mp h2) (not_lt.mp h1)
    have hlt : (⌊x⌋ : ℚ) < (M : ℚ) := by linarith
    have := Int.cast_lt.mp hlt
    omega

lemma pyround_nonneg (nd : ℕ) (x : ℚ) (hx : 0 ≤ x) : 0 ≤ pyround nd x := by
  unfold pyround
  have h1 : (0 : ℤ) ≤ rhe (x * 10 ^ nd) := rhe_nonneg _ (by positivity)
  have h2 : (0 : ℚ) ≤ (rhe (x * 10 ^ nd) : ℚ) := by exact_mod_cast h1
  positivity

lemma pyround_le_one (nd : ℕ) (x : ℚ) (hx : x ≤ 1) : pyround nd x ≤ 1 := by
  unfold pyround
  have h1 : rhe (x * 10 ^ nd) ≤ (10 ^ nd : ℤ) := by
    apply rhe_le_int
    push_cast
    have hp : (0 : ℚ) < 10 ^ nd := by positivity
    nlinarith
  have h2 : (rhe (x * 10 ^ nd) : ℚ) ≤ (10 : ℚ) ^ nd := by exact_mod_cast h1
  have hp : (0 : ℚ) < 10 ^ nd := by positivity
  rw [div_le_one hp]
  exact h2

lemma clamp01_mem (x : ℚ) : 0 ≤ clamp01 x ∧ clamp01 x ≤ 1 :=
  ⟨le_max_left 0 _, max_le (by norm_num) (min_le_left 1 x)⟩

lemma min_one_mem (x : ℚ) (hx : 0 ≤ x) : 0 ≤ min x 1 ∧ min x 1 ≤ 1 :=
  ⟨le_min hx zero_le_one, min_le_right x 1⟩

lemma score_combo2 (a b wa wb : ℚ) (ha : 0 ≤ a) (ha1 : a ≤ 1) (hb : 0 ≤ b)
    (hb1 : b ≤ 1) (hwa : 0 ≤ wa) (hwb : 0 ≤ wb) (hw : wa + wb ≤ 1) :
    0 ≤ a * wa + b * wb ∧ a * wa + b * wb ≤ 1 := by
  constructor
  · positivity
  · have h1 : a * wa ≤ wa := mul_le_of_le_one_left hwa ha1
    have h2 : b * wb ≤ wb := mul_le_of_le_one_left hwb hb1
    linarith

/-! ## Range lemmas for the five sub-scorers -/

lemma activity_score_mem (transactions : List Tx) (now : ℤ) :
    0 ≤ (calculate_activity_score transactions now).1
      ∧ (calculate_activity_score transactions now).1 ≤ 1 := by
  unfold calculate_activity_score
  dsimp only
  refine score_combo2 _ _ 0.6 0.4 ?_ ?_ ?_ ?_ (by norm_num) (by norm_num) (by norm_num)
  · exact (min_one_mem _ (by positivity)).1
  · exact (min_one_mem _ (by positivity)).2
  · exact (min_one_mem _ (by positivity)).1
  · exact (min_one_mem _ (by positivity)).2

lemma diversification_score_mem (positions : List Position) :
    0 ≤ (calculate_diversification_score positions).1
      ∧ (calculate_diversification_score positions).1 ≤ 1 := by
  unfold calculate_diversification_score
  dsimp only
  refine score_combo2 _ _ 0.7 0.3 ?_ ?_ ?_ ?_ (by norm_num) (by norm_num) (by norm_num)
  · exact (min_one_mem _ (by positivity)).1
  · exact (min_one_mem _ (by positivity)).2
  · split
    · exact (min_one_mem _ (by positivity)).1
    · norm_num
  · split
    · exact (min_one_mem _ (by positivity)).2
    · norm_num

lemma risk_score_mem (transactions : List Tx) (positions : List Position) (now : ℤ) :
    0 ≤ (calculate_risk_score transactions positions now).1
      ∧ (calculate_risk_score transactions positions now).1 ≤ 1 := by
  unfold calculate_risk_score
  dsimp only
  split
  · dsimp only
    norm_num
  · dsimp only
    exact clamp01_mem _

lemma profitability_score_mem (transactions : List Tx) (now : ℤ) :
    0 ≤ (calculate_profitability_score transactions now).1
      ∧ (calculate_profitability_score transactions now).1 ≤ 1 := by
  unfold calculate_profitability_score
  dsimp only
  split
  · dsimp only
    norm_num
  · split
    · dsimp only
      norm_num
    · dsimp only
      exact clamp01_mem _

lemma stability_score_mem (transactions : List Tx) (positions : List Position) (now : ℤ) :
    0 ≤ (calculate_stability_score transactions positions now).1
      ∧ (calculate_stability_score transactions positions now).1 ≤ 1 := by
  unfold calculate_stability_score
  dsimp only
  exact clamp01_mem _

/-! ## Shape lemmas for `calculate_scores` -/

lemma calculate_scores_components (transactions : List Tx) (positions : List Position)
    (now : ℤ) :
    (calculate_scores transactions positions now).activity_score
        = pyround 4 (calculate_activity_score transactions now).1
      ∧ (calculate_scores transactions positions now).diversification_score
        = pyround 4 (calculate_diversification_score positions).1
      ∧ (calculate_scores transactions positions now).risk_score
        = pyround 4 (calculate_risk_score transactions positions now).1
      ∧ (calculate_scores transactions positions now).profitability_score
        = pyround 4 (calculate_profitability_score transactions now).1
      ∧ (calculate_scores transactions positions now).stability_score
        = pyround 4 (calculate_stability_score transactions positions now).1 :=
  ⟨rfl, rfl, rfl, rfl, rfl⟩

lemma calculate_scores_total_eq (transactions : List Tx) (positions : List Position)
    (now : ℤ) :
    (calculate_scores transactions positions now).total_score
      = pyround 4
          ((calculate_scores transactions positions now).activity_score * 0.2
            + (calculate_scores transactions positions now).diversification_score * 0.2
            + (calculate_scores transactions positions now).risk_score * 0.2
            + (calculate_scores transactions positions now).profitability_score * 0.2
            + (calculate_scores transactions positions now).stability_score * 0.2) :=
  rfl

/-- C1: every sub-scorer's score and the aggregated `total_score` lie in
the closed unit interval [0, 1], for every transaction list, position list
and reference time. -/
theorem C1_scores_in_unit_interval (transactions : List Tx) (positions : List Position)
    (now : ℤ) :
    (0 ≤ (calculate_activity_score transactions now).1
        ∧ (calculate_activity_score transactions now).1 ≤ 1)
      ∧ (0 ≤ (calculate_diversification_score positions).1
        ∧ (calculate_diversification_score positions).1 ≤ 1)
      ∧ (0 ≤ (calculate_risk_score transactions positions now).1
        ∧ (calculate_risk_score transactions positions now).1 ≤ 1)
      ∧ (0 ≤ (calculate_profitability_score transactions now).1
        ∧ (calculate_profitability_score transactions now).1 ≤ 1)
      ∧ (0 ≤ (calculate_stability_score transactions positions now).1
        ∧ (calculate_stability_score transactions positions now).1 ≤ 1)
      ∧ (0 ≤ (calculate_scores transactions positions now).total_score
        ∧ (calculate_scores transactions positions now).total_score ≤ 1) := by
  have ha := activity_score_mem transactions now
  have hd := diversification_score_mem positions
  have hr := risk_score_mem transactions positions now
  have hp := profitability_score_mem transactions now
  have hs := stability_score_mem transactions positions now
  refine ⟨ha, hd, hr, hp, hs, ?_⟩
  have hca := calculate_scores_components transactions positions now
  obtain ⟨e1, e2, e3, e4, e5⟩ := hca
  have b1 := And.intro (pyround_nonneg 4 _ ha.1) (pyround_le_one 4 _ ha.2)
  have b2 := And.intro (pyround_nonneg 4 _ hd.1) (pyround_le_one 4 _ hd.2)
  have b3 := And.intro (pyround_nonneg 4 _ hr.1) (pyround_le_one 4 _ hr.2)
  have b4 := And.intro (pyround_nonneg 4 _ hp.1) (pyround_le_one 4 _ hp.2)
  have b5 := And.intro (pyround_nonneg 4 _ hs.1) (pyround_le_one 4 _ hs.2)
  rw [calculate_scores_total_eq, e1, e2, e3, e4, e5]
  constructor
  · apply pyround_nonneg
    nlinarith [b1.1, b2.1, b3.1, b4.1, b5.1]
  · apply pyround_le_one
    nlinarith [b1.2, b2.2, b3.2, b4.2, b5.2]

/-! ## Association-list lookup infrastructure for the metrics dicts -/

lemma pyround_zero (nd : ℕ) : pyround nd 0 = 0 := by
  unfold pyround rhe
  norm_num

lemma lookup_append (k : String) (a b : Metrics) :
    List.lookup k (a ++ b) = ((List.lookup k a).orElse fun _ => List.lookup k b) := by
  induction a with
  | nil => simp [List.lookup, Option.orElse]
  | cons hd tl ih =>
    obtain ⟨k1, v1⟩ := hd
    cases hbeq : (k == k1) <;> simp [List.lookup, hbeq, ih, Option.orElse]

lemma dictGet_append (a b : Metrics) (k : String) :
    dictGet (a ++ b) k = ((dictGet b k).orElse fun _ => dictGet a k) := by
  simp [dictGet, List.reverse_append, lookup_append]

lemma orElse_eq_self (x : Option ℚ) (f : Unit → Option ℚ) (h : f () = none) :
    (x.orElse f) = x := by
  cases x <;> simp [Option.orElse, h]

lemma none_orElse_q (f : Unit → Option ℚ) : (Option.orElse none f) = f () := rfl

lemma some_orElse_q (a : ℚ) (f : Unit → Option ℚ) :
    (Option.orElse (some a) f) = some a := rfl

lemma orElse_of_isSome (x : Option ℚ) (f : Unit → Option ℚ) (h : x.isSome) :
    (x.orElse f) = x := by
  cases x
  · simp at h
  · rfl

lemma calculate_scores_metrics (transactions : List Tx) (positions : List Position)
    (now : ℤ) :
    (calculate_scores transactions positions now).metrics
      = [ ("transactions_count", (transactions.length : ℚ))
        , ("positions_count",
            (dictGet (calculate_diversification_score positions).2 "unique_tokens").getD 0) ]
        ++ (calculate_activity_score transactions now).2
        ++ (calculate_diversification_score positions).2
        ++ (calculate_risk_score transactions positions now).2
        ++ (calculate_profitability_score transactions now).2
        ++ (calculate_stability_score transactions positions now).2 :=
  rfl

lemma dictGet_scores_metrics (transactions : List Tx) (positions : List Position)
    (now : ℤ) (k : String) :
    dictGet (calculate_scores transactions positions now).metrics k
      = ((dictGet (calculate_stability_score transactions positions now).2 k).orElse fun _ =>
        ((dictGet (calculate_profitability_score transactions now).2 k).orElse fun _ =>
        ((dictGet (calculate_risk_score transactions positions now).2 k).orElse fun _ =>
        ((dictGet (calculate_diversification_score positions).2 k).orElse fun _ =>
        ((dictGet (calculate_activity_score transactions now).2 k).orElse fun _ =>
          dictGet
            [ ("transactions_count", (transactions.length : ℚ))
            , ("positions_count",
                (dictGet (calculate_diversification_score positions).2
                  "unique_tokens").getD 0) ] k))))) := by
  simp only [calculate_scores_metrics, dictGet_append]

lemma act_lookup_none (transactions : List Tx) (now : ℤ) (k : String)
    (h1 : k ≠ "recent_tx_count") (h2 : k ≠ "unique_contracts_30d") :
    dictGet (calculate_activity_score transactions now).2 k = none := by
  have hb1 := beq_eq_false_iff_ne.mpr h1
  have hb2 := beq_eq_false_iff_ne.mpr h2
  unfold calculate_activity_score
  dsimp only
  simp [dictGet, List.lookup, hb1, hb2]

lemma div_lookup_none (positions : List Position) (k : String)
    (h1 : k ≠ "unique_tokens") :
    dictGet (calculate_diversification_score positions).2 k = none := by
  have hb1 := beq_eq_false_iff_ne.mpr h1
  unfold calculate_diversification_score
  dsimp only
  simp [dictGet, List.lookup, hb1]

lemma div_lookup_unique_tokens (positions : List Position) :
    dictGet (calculate_diversification_score positions).2 "unique_tokens"
      = some ((active_positions positions).length : ℚ) := by
  unfold calculate_diversification_score
  dsimp only
  simp [dictGet, List.lookup]

lemma risk_lookup_none (transactions : List Tx) (positions : List Position) (now : ℤ)
    (k : String) (h1 : k ≠ "stablecoin_ratio") (h2 : k ≠ "high_risk_tokens")
    (h3 : k ≠ "stablecoin_count") :
    dictGet (calculate_risk_score transactions positions now).2 k = none := by
  have hb1 := beq_eq_false_iff_ne.mpr h1
  have hb2 := beq_eq_false_iff_ne.mpr h2
  have hb3 := beq_eq_false_iff_ne.mpr h3
  unfold calculate_risk_score
  dsimp only
  split
  · dsimp only
    simp [dictGet, List.lookup, hb1, hb2]
  · dsimp only
    simp [dictGet, List.lookup, hb1, hb2, hb3]

lemma prof_lookup_none (transactions : List Tx) (now : ℤ) (k : String)
    (h1 : k ≠ "net_flow") (h2 : k ≠ "avg_value") (h3 : k ≠ "tx_count_90d")
    (h4 : k ≠ "avg_tx_value") (h5 : k ≠ "activity_consistency") :
    dictGet (calculate_profitability_score transactions now).2 k = none := by
  have hb1 := beq_eq_false_iff_ne.mpr h1
  have hb2 := beq_eq_false_iff_ne.mpr h2
  have hb3 := beq_eq_false_iff_ne.mpr h3
  have hb4 := beq_eq_false_iff_ne.mpr h4
  have hb5 := beq_eq_false_iff_ne.mpr h5
  unfold calculate_profitability_score
  dsimp only
  split
  · dsimp only
    simp [dictGet, List.lookup, hb1, hb2]
  · split
    · dsimp only
      simp [dictGet, List.lookup, hb1, hb2]
    · dsimp only
      simp [dictGet, List.lookup, hb3, hb4, hb5]

lemma stab_lookup_none (transactions : List Tx) (positions : List Position) (now : ℤ)
    (k : String) (h1 : k ≠ "stablecoin_ratio") (h2 : k ≠ "wallet_age_days")
    (h3 : k ≠ "recent_sell_count") :
    dictGet (calculate_stability_score transactions positions now).2 k = none := by
  have hb1 := beq_eq_false_iff_ne.mpr h1
  have hb2 := beq_eq_false_iff_ne.mpr h2
  have hb3 := beq_eq_false_iff_ne.mpr h3
  unfold calculate_stability_score
  dsimp only
  simp [dictGet, List.lookup, hb1, hb2, hb3]

lemma stab_lookup_wallet_age (transactions : List Tx) (positions : List Position)
    (now : ℤ) :
    dictGet (calculate_stability_score transactions positions now).2 "wallet_age_days"
      = some ((wallet_age_days_of transactions now : ℤ) : ℚ) := by
  unfold calculate_stability_score
  dsimp only
  simp [dictGet, List.lookup]

lemma stab_ratio_isSome (transactions : List Tx) (positions : List Position) (now : ℤ) :
    (dictGet (calculate_stability_score transactions positions now).2
      "stablecoin_ratio").isSome := by
  unfold calculate_stability_score
  dsimp only
  simp [dictGet, List.lookup]

lemma risk_stab_ratio_agree (transactions : List Tx) (positions : List Position)
    (now : ℤ) :
    dictGet (calculate_risk_score transactions positions now).2 "stablecoin_ratio"
      = dictGet (calculate_stability_score transactions positions now).2
          "stablecoin_ratio" := by
  unfold calculate_risk_score calculate_stability_score
  dsimp only
  split
  · rename_i h
    simp [dictGet, List.lookup, h, pyround_zero]
  · rename_i h
    have hlen : 0 < (active_positions positions).length := List.length_pos.mpr h
    simp [dictGet, List.lookup, h, hlen]

/-- C2: `calculate_scores` stores each component rounded to 4 decimal
places, and the stored `total_score` is the round-to-4 of the sum of the
five stored (already rounded) components weighted 0.2 each; the result is a
pure function of the inputs, so identical inputs reproduce identical
stored values. -/
theorem C2_total_is_rounded_weighted_sum (transactions : List Tx)
    (positions : List Position) (now : ℤ) :
    ((calculate_scores transactions positions now).activity_score
        = pyround 4 (calculate_activity_score transactions now).1
      ∧ (calculate_scores transactions positions now).diversification_score
        = pyround 4 (calculate_diversification_score positions).1
      ∧ (calculate_scores transactions positions now).risk_score
        = pyround 4 (calculate_risk_score transactions positions now).1
      ∧ (calculate_scores transactions positions now).profitability_score
        = pyround 4 (calculate_profitability_score transactions now).1
      ∧ (calculate_scores transactions positions now).stability_score
        = pyround 4 (calculate_stability_score transactions positions now).1)
      ∧ (calculate_scores transactions positions now).total_score
        = pyround 4
            ((calculate_scores transactions positions now).activity_score * 0.2
              + (calculate_scores transactions positions now).diversification_score * 0.2
              + (calculate_scores transactions positions now).risk_score * 0.2
              + (calculate_scores transactions positions now).profitability_score * 0.2
              + (calculate_scores transactions positions now).stability_score * 0.2) :=
  ⟨calculate_scores_components transactions positions now,
   calculate_scores_total_eq transactions positions now⟩

/-- C10: in the merged metrics, `transactions_count` is the length of the
full transaction list while `positions_count` counts only the active
positions (parsed balance strictly positive), not all input positions. -/
theorem C10_counts_semantics (transactions : List Tx) (positions : List Position)
    (now : ℤ) :
    dictGet (calculate_scores transactions positions now).metrics "transactions_count"
        = some (transactions.length : ℚ)
      ∧ dictGet (calculate_scores transactions positions now).metrics "positions_count"
        = some ((active_positions positions).length : ℚ) := by
  constructor
  · simp only [dictGet_scores_metrics,
      stab_lookup_none transactions positions now "transactions_count"
        (by decide) (by decide) (by decide),
      prof_lookup_none transactions now "transactions_count"
        (by decide) (by decide) (by decide) (by decide) (by decide),
      risk_lookup_none transactions positions now "transactions_count"
        (by decide) (by decide) (by decide),
      div_lookup_none positions "transactions_count" (by decide),
      act_lookup_none transactions now "transactions_count" (by decide) (by decide),
      none_orElse_q, some_orElse_q]
    simp [dictGet, List.lookup]
  · simp only [dictGet_scores_metrics,
      stab_lookup_none transactions positions now "positions_count"
        (by decide) (by decide) (by decide),
      prof_lookup_none transactions now "positions_count"
        (by decide) (by decide) (by decide) (by decide) (by decide),
      risk_lookup_none transactions positions now "positions_count"
        (by decide) (by decide) (by decide),
      div_lookup_none positions "positions_count" (by decide),
      act_lookup_none transactions now "positions_count" (by decide) (by decide),
      none_orElse_q, some_orElse_q]
    rw [div_lookup_unique_tokens]
    simp [dictGet, List.lookup]

/-- C4 counterexample: the key sets of the sub-scorers are not pairwise
disjoint: with one active stablecoin position, both `calculate_risk_score`
and `calculate_stability_score` emit the key `stablecoin_ratio`. -/
theorem C4_counterexample_shared_key :
    "stablecoin_ratio" ∈ dictKeys
        (calculate_risk_score []
          [{ tokenBalance := some 1
           , contractAddress := some "0xdac17f958d2ee523a2206206994597c13d831ec7" }] 0).2
      ∧ "stablecoin_ratio" ∈ dictKeys
        (calculate_stability_score []
          [{ tokenBalance := some 1
           , contractAddress := some "0xdac17f958d2ee523a2206206994597c13d831ec7" }] 0).2 := by
  constructor
  · unfold calculate_risk_score
    dsimp only
    split
    · rename_i h
      simp [active_positions, parse_balance] at h
    · simp [dictKeys]
  · unfold calculate_stability_score
    dsimp only
    simp [dictKeys]

/-- C4 amended: the scorer key sets are not pairwise disjoint — the key
`stablecoin_ratio` is emitted by both the risk and the stability scorer —
but the two scorers always compute the same value for it, so the merged
metrics mapping of `calculate_scores` still contains every scorer's metric
entries unchanged: looking up any metric key in the merged mapping gives
exactly what the scorer that owns the key emitted for it. -/
theorem C4_merged_metrics_preserved (transactions : List Tx) (positions : List Position)
    (now : ℤ) :
    (dictGet (calculate_scores transactions positions now).metrics "recent_tx_count"
        = dictGet (calculate_activity_score transactions now).2 "recent_tx_count"
      ∧ dictGet (calculate_scores transactions positions now).metrics "unique_contracts_30d"
        = dictGet (calculate_activity_score transactions now).2 "unique_contracts_30d")
      ∧ dictGet (calculate_scores transactions positions now).metrics "unique_tokens"
        = dictGet (calculate_diversification_score positions).2 "unique_tokens"
      ∧ (dictGet (calculate_scores transactions positions now).metrics "high_risk_tokens"
        = dictGet (calculate_risk_score transactions positions now).2 "high_risk_tokens"
      ∧ dictGet (calculate_scores transactions positions now).metrics "stablecoin_count"
        = dictGet (calculate_risk_score transactions positions now).2 "stablecoin_count")
      ∧ (dictGet (calculate_scores transactions positions now).metrics "net_flow"
        = dictGet (calculate_profitability_score transactions now).2 "net_flow"
      ∧ dictGet (calculate_scores transactions positions now).metrics "avg_value"
        = dictGet (calculate_profitability_score transactions now).2 "avg_value"
      ∧ dictGet (calculate_scores transactions positions now).metrics "tx_count_90d"
        = dictGet (calculate_profitability_score transactions now).2 "tx_count_90d"
      ∧ dictGet (calculate_scores transactions positions now).metrics "avg_tx_value"
        = dictGet (calculate_profitability_score transactions now).2 "avg_tx_value"
      ∧ dictGet (calculate_scores transactions positions now).metrics "activity_consistency"
        = dictGet (calculate_profitability_score transactions now).2 "activity_consistency")
      ∧ (dictGet (calculate_scores transactions positions now).metrics "stablecoin_ratio"
        = dictGet (calculate_stability_score transactions positions now).2 "stablecoin_ratio"
      ∧ dictGet (calculate_scores transactions positions now).metrics "wallet_age_days"
        = dictGet (calculate_stability_score transactions positions now).2 "wallet_age_days"
      ∧ dictGet (calculate_scores transactions positions now).metrics "recent_sell_count"
        = dictGet (calculate_stability_score transactions positions now).2 "recent_sell_count")
      ∧ dictGet (calculate_risk_score transactions positions now).2 "stablecoin_ratio"
        = dictGet (calculate_stability_score transactions positions now).2
            "stablecoin_ratio" := by
  refine ⟨⟨?_, ?_⟩, ?_, ⟨?_, ?_⟩, ⟨?_, ?_, ?_, ?_, ?_⟩, ⟨?_, ?_, ?_⟩,
    risk_stab_ratio_agree transactions positions now⟩
  case _ =>
    simp only [dictGet_scores_metrics,
      stab_lookup_none transactions positions now "recent_tx_count"
        (by decide) (by decide) (by decide),
      prof_lookup_none transactions now "recent_tx_count"
        (by decide) (by decide) (by decide) (by decide) (by decide),
      risk_lookup_none transactions positions now "recent_tx_count"
        (by decide) (by decide) (by decide),
      div_lookup_none positions "recent_tx_count" (by decide),
      none_orElse_q, some_orElse_q]
    exact orElse_eq_self _ _ (by simp [dictGet, List.lookup])
  case _ =>
    simp only [dictGet_scores_metrics,
      stab_lookup_none transactions positions now "unique_contracts_30d"
        (by decide) (by decide) (by decide),
      prof_lookup_none transactions now "unique_contracts_30d"
        (by decide) (by decide) (by decide) (by decide) (by decide),
      risk_lookup_none transactions positions now "unique_contracts_30d"
        (by decide) (by decide) (by decide),
      div_lookup_none positions "unique_contracts_30d" (by decide),
      none_orElse_q, some_orElse_q]
    exact orElse_eq_self _ _ (by simp [dictGet, List.lookup])
  case _ =>
    simp only [dictGet_scores_metrics,
      stab_lookup_none transactions positions now "unique_tokens"
        (by decide) (by decide) (by decide),
      prof_lookup_none transactions now "unique_tokens"
        (by decide) (by decide) (by decide) (by decide) (by decide),
      risk_lookup_none transactions positions now "unique_tokens"
        (by decide) (by decide) (by decide),
      none_orElse_q, some_orElse_q]
    refine orElse_eq_self _ _ ?_
    simp only [act_lookup_none transactions now "unique_tokens" (by decide) (by decide),
      none_orElse_q, some_orElse_q]
    simp [dictGet, List.lookup]
  case _ =>
    simp only [dictGet_scores_metrics,
      stab_lookup_none transactions positions now "high_risk_tokens"
        (by decide) (by decide) (by decide),
      prof_lookup_none transactions now "high_risk_tokens"
        (by decide) (by decide) (by decide) (by decide) (by decide),
      none_orElse_q, some_orElse_q]
    refine orElse_eq_self _ _ ?_
    simp only [div_lookup_none positions "high_risk_tokens" (by decide),
      act_lookup_none transactions now "high_risk_tokens" (by decide) (by decide),
      none_orElse_q, some_orElse_q]
    simp [dictGet, List.lookup]
  case _ =>
    simp only [dictGet_scores_metrics,
      stab_lookup_none transactions positions now "stablecoin_count"
        (by decide) (by decide) (by decide),
      prof_lookup_none transactions now "stablecoin_count"
        (by decide) (by decide) (by decide) (by decide) (by decide),
      none_orElse_q, some_orElse_q]
    refine orElse_eq_self _ _ ?_
    simp only [div_lookup_none positions "stablecoin_count" (by decide),
      act_lookup_none transactions now "stablecoin_count" (by decide) (by decide),
      none_orElse_q, some_orElse_q]
    simp [dictGet, List.lookup]
  case _ =>
    simp only [dictGet_scores_metrics,
      stab_lookup_none transactions positions now "net_flow"
        (by decide) (by decide) (by decide),
      none_orElse_q, some_orElse_q]
    refine orElse_eq_self _ _ ?_
    simp only [risk_lookup_none transactions positions now "net_flow"
        (by decide) (by decide) (by decide),
      div_lookup_none positions "net_flow" (by decide),
      act_lookup_none transactions now "net_flow" (by decide) (by decide),
      none_orElse_q, some_orElse_q]
    simp [dictGet, List.lookup]
  case _ =>
    simp only [dictGet_scores_metrics,
      stab_lookup_none transactions positions now "avg_value"
        (by decide) (by decide) (by decide),
      none_orElse_q, some_orElse_q]
    refine orElse_eq_self _ _ ?_
    simp only [risk_lookup_none transactions positions now "avg_value"
        (by decide) (by decide) (by decide),
      div_lookup_none positions "avg_value" (by decide),
      act_lookup_none transactions now "avg_value" (by decide) (by decide),
      none_orElse_q, some_orElse_q]
    simp [dictGet, List.lookup]
  case _ =>
    simp only [dictGet_scores_metrics,
      stab_lookup_none transactions positions now "tx_count_90d"
        (by decide) (by decide) (by decide),
      none_orElse_q, some_orElse_q]
    refine orElse_eq_self _ _ ?_
    simp only [risk_lookup_none transactions positions now "tx_count_90d"
        (by decide) (by decide) (by decide),
      div_lookup_none positions "tx_count_90d" (by decide),
      act_lookup_none transactions now "tx_count_90d" (by decide) (by decide),
      none_orElse_q, some_orElse_q]
    simp [dictGet, List.lookup]
  case _ =>
    simp only [dictGet_scores_metrics,
      stab_lookup_none transactions positions now "avg_tx_value"
        (by decide) (by decide) (by decide),
      none_orElse_q, some_orElse_q]
    refine orElse_eq_self _ _ ?_
    simp only [risk_lookup_none transactions positions now "avg_tx_value"
        (by decide) (by decide) (by decide),
      div_lookup_none positions "avg_tx_value" (by decide),
      act_lookup_none transactions now "avg_tx_value" (by decide) (by decide),
      none_orElse_q, some_orElse_q]
    simp [dictGet, List.lookup]
  case _ =>
    simp only [dictGet_scores_metrics,
      stab_lookup_none transactions positions now "activity_consistency"
        (by decide) (by decide) (by decide),
      none_orElse_q, some_orElse_q]
    refine orElse_eq_self _ _ ?_
    simp only [risk_lookup_none transactions positions now "activity_consistency"
        (by decide) (by decide) (by decide),
      div_lookup_none positions "activity_consistency" (by decide),
      act_lookup_none transactions now "activity_consistency" (by decide) (by decide),
      none_orElse_q, some_orElse_q]
    simp [dictGet, List.lookup]
  case _ =>
    rw [dictGet_scores_metrics]
    exact orElse_of_isSome _ _ (stab_ratio_isSome transactions positions now)
  case _ =>
    rw [dictGet_scores_metrics]
    refine orElse_eq_self _ _ ?_
    simp only [prof_lookup_none transactions now "wallet_age_days"
        (by decide) (by decide) (by decide) (by decide) (by decide),
      risk_lookup_none transactions positions now "wallet_age_days"
        (by decide) (by decide) (by decide),
      div_lookup_none positions "wallet_age_days" (by decide),
      act_lookup_none transactions now "wallet_age_days" (by decide) (by decide),
      none_orElse_q, some_orElse_q]
    simp [dictGet, List.lookup]
  case _ =>
    rw [dictGet_scores_metrics]
    refine orElse_eq_self _ _ ?_
    simp only [prof_lookup_none transactions now "recent_sell_count"
        (by decide) (by decide) (by decide) (by decide) (by decide),
      risk_lookup_none transactions positions now "recent_sell_count"
        (by decide) (by decide) (by decide),
      div_lookup_none positions "recent_sell_count" (by decide),
      act_lookup_none transactions now "recent_sell_count" (by decide) (by decide),
      none_orElse_q, some_orElse_q]
    simp [dictGet, List.lookup]

/-- C6: a wallet with no transfers and no positions scores activity 0.0,
diversification 0.0, risk 0.5 and profitability 0.5, and stability is
computed with `wallet_age_days = 0` (so the age contribution is 0 and the
stability score is exactly the neutral-panic contribution 0.21). -/
theorem C6_empty_wallet_scores (now : ℤ) :
    (calculate_activity_score [] now).1 = 0
      ∧ (calculate_diversification_score []).1 = 0
      ∧ (calculate_risk_score [] [] now).1 = 0.5
      ∧ (calculate_profitability_score [] now).1 = 0.5
      ∧ wallet_age_days_of [] now = 0
      ∧ dictGet (calculate_stability_score [] [] now).2 "wallet_age_days" = some 0
      ∧ (calculate_stability_score [] [] now).1 = 0.21 := by
  refine ⟨?_, ?_, ?_, ?_, rfl, ?_, ?_⟩
  · simp [calculate_activity_score, recentTx]
  · simp [calculate_diversification_score, active_positions]
  · simp [calculate_risk_score, active_positions]
  · simp [calculate_profitability_score]
  · simp [calculate_stability_score, wallet_age_days_of, dictGet, List.lookup]
  · simp [calculate_stability_score, active_positions, wallet_age_days_of,
      recentTx, clamp01]
    norm_num

/-- C7 counterexample: with no active positions, the metrics of
`calculate_risk_score` do not contain the key `stablecoin_count` (the
empty-portfolio branch emits only `stablecoin_ratio` and
`high_risk_tokens`), so the metrics mapping does not always contain all
three keys. -/
theorem C7_counterexample_no_stablecoin_count :
    "stablecoin_count" ∉ dictKeys (calculate_risk_score [] [] 0).2 := by
  decide

/-- C7 amended: when at least one active position exists,
`calculate_risk_score` returns `0.5 + 0.4·stablecoin_ratio −
0.3·high_risk_ratio − 0.2·large_tx_ratio` clamped to [0, 1], and its
metrics then contain `stablecoin_ratio` (rounded to 3 decimal places),
`stablecoin_count` and `high_risk_tokens`; with no active positions the
`stablecoin_count` key is absent (see the counterexample). -/
theorem C7_risk_formula_and_metrics (transactions : List Tx) (positions : List Position)
    (now : ℤ) (h : active_positions positions ≠ []) :
    (calculate_risk_score transactions positions now).1
        = clamp01 (0.5 + 0.4 * stablecoin_ratio_of positions
            - 0.3 * high_risk_ratio_of positions
            - 0.2 * large_tx_ratio_of transactions now)
      ∧ dictGet (calculate_risk_score transactions positions now).2 "stablecoin_ratio"
        = some (pyround 3 (stablecoin_ratio_of positions))
      ∧ dictGet (calculate_risk_score transactions positions now).2 "stablecoin_count"
        = some (((active_positions positions).countP fun p => posIsStablecoin p : ℕ) : ℚ)
      ∧ dictGet (calculate_risk_score transactions positions now).2 "high_risk_tokens"
        = some (((active_positions positions).countP fun p => posIsHighRisk p : ℕ) : ℚ) := by
  have hlen : 0 < (active_positions positions).length := List.length_pos.mpr h
  unfold calculate_risk_score stablecoin_ratio_of high_risk_ratio_of large_tx_ratio_of
  dsimp only
  rw [if_neg h]
  dsimp only
  rw [if_pos hlen, if_pos hlen]
  refine ⟨?_, ?_, ?_, ?_⟩
  · congr 1
    ring
  · simp [dictGet, List.lookup]
  · simp [dictGet, List.lookup]
  · simp [dictGet, List.lookup]

/-- C7 witness: one active USDT position triggers the non-empty branch. -/
theorem C7_witness :
    active_positions
        [{ tokenBalance := some 1
         , contractAddress := some "0xdac17f958d2ee523a2206206994597c13d831ec7" }] ≠ []
      ∧ ((calculate_risk_score []
          [{ tokenBalance := some 1
           , contractAddress := some "0xdac17f958d2ee523a2206206994597c13d831ec7" }] 0).1
        = clamp01 (0.5 + 0.4 * stablecoin_ratio_of
            [{ tokenBalance := some 1
             , contractAddress := some "0xdac17f958d2ee523a2206206994597c13d831ec7" }]
            - 0.3 * high_risk_ratio_of
            [{ tokenBalance := some 1
             , contractAddress := some "0xdac17f958d2ee523a2206206994597c13d831ec7" }]
            - 0.2 * large_tx_ratio_of [] 0)
      ∧ dictGet (calculate_risk_score []
          [{ tokenBalance := some 1
           , contractAddress := some "0xdac17f958d2ee523a2206206994597c13d831ec7" }] 0).2
          "stablecoin_ratio"
        = some (pyround 3 (stablecoin_ratio_of
            [{ tokenBalance := some 1
             , contractAddress := some "0xdac17f958d2ee523a2206206994597c13d831ec7" }]))
      ∧ dictGet (calculate_risk_score []
          [{ tokenBalance := some 1
           , contractAddress := some "0xdac17f958d2ee523a2206206994597c13d831ec7" }] 0).2
          "stablecoin_count"
        = some (((active_positions
            [{ tokenBalance := some 1
             , contractAddress := some "0xdac17f958d2ee523a2206206994597c13d831ec7" }]).countP
              fun p => posIsStablecoin p : ℕ) : ℚ)
      ∧ dictGet (calculate_risk_score []
          [{ tokenBalance := some 1
           , contractAddress := some "0xdac17f958d2ee523a2206206994597c13d831ec7" }] 0).2
          "high_risk_tokens"
        = some (((active_positions
            [{ tokenBalance := some 1
             , contractAddress := some "0xdac17f958d2ee523a2206206994597c13d831ec7" }]).countP
              fun p => posIsHighRisk p : ℕ) : ℚ)) :=
  ⟨by decide, C7_risk_formula_and_metrics _ _ 0 (by decide)⟩

/-- Helper: the last element of a list is a member. -/
lemma mem_of_getLast_opt {α : Type} : ∀ (l : List α) (a : α), l.getLast? = some a → a ∈ l
  | [], _, h => by simp at h
  | [x], a, h => by
    simp at h
    simp [h]
  | x :: y :: t, a, h => by
    rw [List.getLast?_cons_cons] at h
    exact List.mem_cons_of_mem _ (mem_of_getLast_opt (y :: t) a h)

/-- Helper: in a list sorted newest-first (pairwise non-increasing
timestamps), the last element carries the minimum timestamp. -/
lemma getLast_min_of_sorted_desc :
    ∀ (l : List Tx),
      l.Pairwise (fun a b => b.blockTimestamp ≤ a.blockTimestamp) →
      ∀ last, l.getLast? = some last →
      ∀ tx ∈ l, last.blockTimestamp ≤ tx.blockTimestamp
  | [], _, _, h, _, _ => by simp at h
  | [x], _, last, h, tx, htx => by
    simp at h htx
    simp [h, htx]
  | x :: y :: t, hp, last, h, tx, htx => by
    rw [List.getLast?_cons_cons] at h
    rw [List.pairwise_cons] at hp
    rcases List.mem_cons.mp htx with rfl | hmem
    · exact le_trans
        (hp.1 last (mem_of_getLast_opt (y :: t) last h))
        (le_refl tx.blockTimestamp)
    · exact getLast_min_of_sorted_desc (y :: t) hp.2 last h tx hmem

/-- C5 counterexample: `wallet_age_days` is computed from the LAST element
of the transfer list, not from the earliest timestamp in the list.  With
`now = 864000` (day 10) and transfers listed oldest-first `[t=0,
t=777600]`, the earliest timestamp is 0 (10 whole days before `now`), but
the scorer reports a wallet age of 1 day (from the last element
`t=777600`). -/
theorem C5_counterexample_not_earliest :
    (([⟨0, none, none, none⟩, ⟨777600, none, none, none⟩] : List Tx).map
        (fun tx => tx.blockTimestamp)).min? = some 0
      ∧ Int.fdiv (864000 - 0) 86400 = 10
      ∧ wallet_age_days_of
          [⟨0, none, none, none⟩, ⟨777600, none, none, none⟩] 864000 = 1
      ∧ dictGet (calculate_stability_score
          [⟨0, none, none, none⟩, ⟨777600, none, none, none⟩] [] 864000).2
          "wallet_age_days" = some 1
      ∧ (1 : ℤ) ≠ 10 := by
  refine ⟨by decide, by decide, by decide, ?_, by decide⟩
  rw [stab_lookup_wallet_age]
  norm_num
  decide

/-- C5 amended: in `calculate_stability_score`, `wallet_age_days` is the
whole number of days between the timestamp of the LAST element of the
transfer list and `now`; it is 0 for the empty list, the computation is
total (the source guards the lookup with `try`/`except`), and when the
transfer list is ordered newest-first — the order the upstream client
returns — that last element is the earliest transfer, so only then does
the claimed earliest-based reading hold. -/
theorem C5_wallet_age_semantics (transactions : List Tx) (positions : List Position)
    (now : ℤ)
    (hsort : transactions.Pairwise (fun a b => b.blockTimestamp ≤ a.blockTimestamp)) :
    dictGet (calculate_stability_score transactions positions now).2 "wallet_age_days"
        = some ((wallet_age_days_of transactions now : ℤ) : ℚ)
      ∧ (transactions = [] → wallet_age_days_of transactions now = 0)
      ∧ (∀ last, transactions.getLast? = some last →
          wallet_age_days_of transactions now
              = Int.fdiv (now - last.blockTimestamp) 86400
            ∧ ∀ tx ∈ transactions, last.blockTimestamp ≤ tx.blockTimestamp) := by
  refine ⟨stab_lookup_wallet_age transactions positions now, ?_, ?_⟩
  · intro h
    subst h
    rfl
  · intro last hlast
    constructor
    · simp [wallet_age_days_of, hlast, coerce_timestamp]
    · exact getLast_min_of_sorted_desc transactions hsort last hlast

/-- C5 witness: a two-element newest-first transfer list. -/
theorem C5_witness :
    (([⟨777600, none, none, none⟩, ⟨0, none, none, none⟩] : List Tx).Pairwise
        (fun a b => b.blockTimestamp ≤ a.blockTimestamp))
      ∧ (dictGet (calculate_stability_score
            [⟨777600, none, none, none⟩, ⟨0, none, none, none⟩] [] 864000).2
            "wallet_age_days"
          = some ((wallet_age_days_of
              [⟨777600, none, none, none⟩, ⟨0, none, none, none⟩] 864000 : ℤ) : ℚ)
        ∧ (([⟨777600, none, none, none⟩, ⟨0, none, none, none⟩] : List Tx) = []
            → wallet_age_days_of
                [⟨777600, none, none, none⟩, ⟨0, none, none, none⟩] 864000 = 0)
        ∧ (∀ last,
            ([⟨777600, none, none, none⟩, ⟨0, none, none, none⟩] : List Tx).getLast?
                = some last →
            wallet_age_days_of
                [⟨777600, none, none, none⟩, ⟨0, none, none, none⟩] 864000
                = Int.fdiv (864000 - last.blockTimestamp) 86400
              ∧ ∀ tx ∈ ([⟨777600, none, none, none⟩, ⟨0, none, none, none⟩] : List Tx),
                  last.blockTimestamp ≤ tx.blockTimestamp)) :=
  ⟨by decide, C5_wallet_age_semantics _ [] 864000 (by decide)⟩

/-- C3 counterexample: the per-address loop of `run_wallet_pipeline` has no
`try`/`except`, so a failure while processing the first address aborts the
batch: the second address is never processed. -/
theorem C3_counterexample_batch_aborts :
    (run_wallet_pipeline
        (fun a => if a = "0xaaa" then Except.error "UpstreamFetchFailure"
          else Except.ok ())
        ["0xaaa", "0xbbb"]).1 = []
      ∧ "0xbbb" ∉ (run_wallet_pipeline
        (fun a => if a = "0xaaa" then Except.error "UpstreamFetchFailure"
          else Except.ok ())
        ["0xaaa", "0xbbb"]).1
      ∧ (run_wallet_pipeline
        (fun a => if a = "0xaaa" then Except.error "UpstreamFetchFailure"
          else Except.ok ())
        ["0xaaa", "0xbbb"]).2 = some "UpstreamFetchFailure" := by
  refine ⟨rfl, ?_, rfl⟩
  decide

/-- C3 amended: a failure for one address aborts the rest of the batch: the
addresses actually processed form exactly the longest prefix of the input
on which the per-address step succeeds, and the run finishes without error
iff every address's step succeeds. -/
theorem C3_failure_aborts_batch (step : AddressStep) (addresses : List String) :
    (run_wallet_pipeline step addresses).1
        = addresses.takeWhile (fun a => (step a).isOk)
      ∧ ((run_wallet_pipeline step addresses).2 = none
        ↔ ∀ a ∈ addresses, (step a).isOk = true) := by
  induction addresses with
  | nil => simp [run_wallet_pipeline]
  | cons hd tl ih =>
    cases hstep : step hd with
    | error e =>
      simp [run_wallet_pipeline, hstep, List.takeWhile_cons, Except.isOk, Except.toBool]
    | ok u =>
      have hok : (step hd).isOk = true := by rw [hstep]; rfl
      refine ⟨?_, ?_⟩
      · simp [run_wallet_pipeline, hstep, List.takeWhile_cons, hok, ih.1,
          Except.isOk, Except.toBool]
      · simp [run_wallet_pipeline, hstep, ih.2, hok, Except.isOk, Except.toBool]

/-- C8: a trigger on the extract endpoint while the latest job for that
address is `pending` or `processing` returns that same job and changes
nothing: no job row is inserted and no background pipeline run is
spawned. -/
theorem C8_inflight_job_dedup (st : ApiState) (address : String) (j : Job)
    (hv : is_valid_eth_address address = true)
    (hl : get_latest_extraction_job st.jobs address = some j)
    (hs : j.status = JobStatus.pending ∨ j.status = JobStatus.processing) :
    extract_wallet st address = (st, ExtractResponse.accepted j)
      ∧ (extract_wallet st address).1.jobs = st.jobs
      ∧ (extract_wallet st address).1.runs = st.runs := by
  have hmain : extract_wallet st address = (st, ExtractResponse.accepted j) := by
    unfold extract_wallet
    rw [hl]
    simp [hv, hs]
  exact ⟨hmain, by rw [hmain], by rw [hmain]⟩

/-- C8 witness: a state holding one `processing` job for the address. -/
theorem C8_witness :
    (is_valid_eth_address "0xaaaaaaaaaaaaaaaaaaaaaaaaaaaaaaaaaaaaaaaa" = true
      ∧ get_latest_extraction_job
          [{ id := 0, address := "0xaaaaaaaaaaaaaaaaaaaaaaaaaaaaaaaaaaaaaaaa"
           , status := JobStatus.processing, created_at := 0 }]
          "0xaaaaaaaaaaaaaaaaaaaaaaaaaaaaaaaaaaaaaaaa"
        = some { id := 0, address := "0xaaaaaaaaaaaaaaaaaaaaaaaaaaaaaaaaaaaaaaaa"
               , status := JobStatus.processing, created_at := 0 })
      ∧ extract_wallet
          { jobs := [{ id := 0, address := "0xaaaaaaaaaaaaaaaaaaaaaaaaaaaaaaaaaaaaaaaa"
                     , status := JobStatus.processing, created_at := 0 }]
          , runs := [(0, "0xaaaaaaaaaaaaaaaaaaaaaaaaaaaaaaaaaaaaaaaa")]
          , next_id := 1, clock := 1 }
          "0xaaaaaaaaaaaaaaaaaaaaaaaaaaaaaaaaaaaaaaaa"
        = ({ jobs := [{ id := 0, address := "0xaaaaaaaaaaaaaaaaaaaaaaaaaaaaaaaaaaaaaaaa"
                      , status := JobStatus.processing, created_at := 0 }]
           , runs := [(0, "0xaaaaaaaaaaaaaaaaaaaaaaaaaaaaaaaaaaaaaaaa")]
           , next_id := 1, clock := 1 },
          ExtractResponse.accepted
            { id := 0, address := "0xaaaaaaaaaaaaaaaaaaaaaaaaaaaaaaaaaaaaaaaa"
            , status := JobStatus.processing, created_at := 0 }) :=
  ⟨⟨by decide, by decide⟩,
    (C8_inflight_job_dedup
      { jobs := [{ id := 0, address := "0xaaaaaaaaaaaaaaaaaaaaaaaaaaaaaaaaaaaaaaaa"
                 , status := JobStatus.processing, created_at := 0 }]
      , runs := [(0, "0xaaaaaaaaaaaaaaaaaaaaaaaaaaaaaaaaaaaaaaaa")]
      , next_id := 1, clock := 1 }
      "0xaaaaaaaaaaaaaaaaaaaaaaaaaaaaaaaaaaaaaaaa"
      { id := 0, address := "0xaaaaaaaaaaaaaaaaaaaaaaaaaaaaaaaaaaaaaaaa"
      , status := JobStatus.processing, created_at := 0 }
      (by decide) (by decide) (Or.inr (by decide))).1⟩

/-- C9: the wallet watermark upsert only ever widens the stored interval:
against an existing row, the stored `first_seen` becomes the minimum of
old and new (so an earlier value replaces it and a later one leaves it),
and `last_seen` becomes the maximum (moving only later). -/
theorem C9_watermark_widens (tbl : WalletTable) (old excluded : WalletRow)
    (f l nf nl : ℤ)
    (h : tbl excluded.address = some old)
    (hf : old.first_seen = some f) (hl : old.last_seen = some l)
    (hnf : excluded.first_seen = some nf) (hnl : excluded.last_seen = some nl) :
    upsert_wallets tbl [excluded] excluded.address
        = some (upsert_wallet_row old excluded)
      ∧ (upsert_wallet_row old excluded).first_seen = some (min f nf)
      ∧ (upsert_wallet_row old excluded).last_seen = some (max l nl)
      ∧ (nf ≤ f → (upsert_wallet_row old excluded).first_seen = some nf)
      ∧ (f ≤ nf → (upsert_wallet_row old excluded).first_seen = some f)
      ∧ (l ≤ nl → (upsert_wallet_row old excluded).last_seen = some nl)
      ∧ (nl ≤ l → (upsert_wallet_row old excluded).last_seen = some l)
      ∧ min f nf ≤ f ∧ l ≤ max l nl := by
  have hfirst : (upsert_wallet_row old excluded).first_seen = some (min f nf) := by
    simp [upsert_wallet_row, sql_least, sql_coalesce, hf, hnf]
  have hlast : (upsert_wallet_row old excluded).last_seen = some (max l nl) := by
    simp [upsert_wallet_row, sql_greatest, sql_coalesce, hl, hnl]
  refine ⟨?_, hfirst, hlast, ?_, ?_, ?_, ?_, min_le_left f nf, le_max_left l nl⟩
  · simp [upsert_wallets, h]
  · intro hle
    rw [hfirst, min_eq_right hle]
  · intro hle
    rw [hfirst, min_eq_left hle]
  · intro hle
    rw [hlast, max_eq_right hle]
  · intro hle
    rw [hlast, max_eq_left hle]

/-- C9 witness: an existing row seeded at [100, 200] upserted with the
wider candidate [50, 300]. -/
theorem C9_witness :
    ((fun a => if a = "0xw" then
        some ({ address := "0xw", chain := "eth_mainnet", first_seen := some 100
              , last_seen := some 200, tags := [] } : WalletRow)
      else none) "0xw"
        = some ({ address := "0xw", chain := "eth_mainnet", first_seen := some 100
                , last_seen := some 200, tags := [] } : WalletRow)
      ∧ upsert_wallets
          (fun a => if a = "0xw" then
            some ({ address := "0xw", chain := "eth_mainnet", first_seen := some 100
                  , last_seen := some 200, tags := [] } : WalletRow)
          else none)
          [{ address := "0xw", chain := "eth_mainnet", first_seen := some 50
           , last_seen := some 300, tags := [] }] "0xw"
        = some (upsert_wallet_row
            { address := "0xw", chain := "eth_mainnet", first_seen := some 100
            , last_seen := some 200, tags := [] }
            { address := "0xw", chain := "eth_mainnet", first_seen := some 50
            , last_seen := some 300, tags := [] })
      ∧ (upsert_wallet_row
            { address := "0xw", chain := "eth_mainnet", first_seen := some 100
            , last_seen := some 200, tags := [] }
            { address := "0xw", chain := "eth_mainnet", first_seen := some 50
            , last_seen := some 300, tags := [] }).first_seen = some (min 100 50)
      ∧ (upsert_wallet_row
            { address := "0xw", chain := "eth_mainnet", first_seen := some 100
            , last_seen := some 200, tags := [] }
            { address := "0xw", chain := "eth_mainnet", first_seen := some 50
            , last_seen := some 300, tags := [] }).last_seen = some (max 200 300)) := by
  have h := C9_watermark_widens
    (fun a => if a = "0xw" then
      some ({ address := "0xw", chain := "eth_mainnet", first_seen := some 100
            , last_seen := some 200, tags := [] } : WalletRow)
    else none)
    { address := "0xw", chain := "eth_mainnet", first_seen := some 100
    , last_seen := some 200, tags := [] }
    { address := "0xw", chain := "eth_mainnet", first_seen := some 50
    , last_seen := some 300, tags := [] }
    100 200 50 300 (by decide) (by decide) (by decide) (by decide) (by decide)
  exact ⟨by decide, h.1, h.2.1, h.2.2.1⟩

end WalletHealth
